import Mathlib

/-!
Verification of the `ego-upload` command-line tool (token-based API variant,
`ego-upload.ts`, VERSION 1.2.0) against its natural-language specification.

The TypeScript source is shallowly embedded: JSON documents become the
inductive `Json`; thrown JavaScript errors become the inductive `JsError`;
each HTTP call's observable outcome (a transport failure, or a response with
a status code and an already-parsed JSON body) is an `HttpOutcome` supplied by
the environment, since the tool's behaviour depends only on what comes back.
Interactive `Confirm.prompt` answers are a stream `Nat → Bool` indexed by the
order in which prompts are issued.  The `main` command action is embedded as a
pure function from an environment of HTTP outcomes to a `RunResult`: the list
of observable events (prompts issued, login/upload/query/logout attempts), the
console output lines, and the final outcome (success, `Deno.exit`, or an
uncaught exception).
-/

/-- A JSON value, as `JSON.parse` produces it.  Numbers are modelled as
integers (every number the EGO API traffics in is one). -/
inductive Json where
  | null : Json
  | bool : Bool → Json
  | num : Int → Json
  | str : String → Json
  | arr : List Json → Json
  | obj : List (String × Json) → Json

/-- A thrown JavaScript error, as the tool can produce it:
`error` is a plain `new Error(message)`; `typeError` is the runtime
`TypeError` raised by reading a property of `null`/`undefined`;
`fetchError` is the rejection `fetch` itself produces on a transport failure
(no response at all); `invalidUploadError` is the `InvalidUploadError` class
declared in the source (carrying the server's validation messages). -/
inductive JsError where
  | error : String → JsError
  | typeError : String → JsError
  | fetchError : String → JsError
  | invalidUploadError : List String → JsError
deriving DecidableEq

/-- The observable outcome of one `fetch` call: either the transport fails
(the returned promise rejects, no response exists), or a response arrives
with an HTTP status code and a body that parses as the given JSON value. -/
inductive HttpOutcome where
  | transportError : String → HttpOutcome
  | response : Nat → Json → HttpOutcome

/-- `response.ok`: the status is in the inclusive range 200..299. -/
def statusOk (status : Nat) : Bool :=
  decide (200 ≤ status) && decide (status < 300)

/-- Own-property lookup on a JavaScript object built by `JSON.parse`:
with duplicate keys the last occurrence wins; a missing key is `undefined`
(`none`). -/
def jsLookup (kvs : List (String × Json)) (key : String) : Option Json :=
  match kvs with
  | [] => none
  | (k, v) :: rest =>
    match jsLookup rest key with
    | some v2 => some v2
    | none => if k == key then some v else none

/-- JavaScript property access `j[key]` on a JSON value: reading a property
of `null` throws a `TypeError`; objects look the key up; primitives and
arrays yield `undefined` (none of the keys the tool reads is a prototype or
index property). -/
def jsProp (j : Json) (key : String) : Except JsError (Option Json) :=
  match j with
  | Json.null =>
    Except.error (JsError.typeError ("Cannot read properties of null (reading " ++ key ++ ")"))
  | Json.obj kvs => Except.ok (jsLookup kvs key)
  | _ => Except.ok none

/-- JavaScript property access on a possibly-`undefined` value (`none`):
reading a property of `undefined` throws a `TypeError`. -/
def jsPropOpt (j : Option Json) (key : String) : Except JsError (Option Json) :=
  match j with
  | none =>
    Except.error (JsError.typeError ("Cannot read properties of undefined (reading " ++ key ++ ")"))
  | some v => jsProp v key

mutual

/-- JavaScript string conversion of a JSON value, as template-literal
interpolation performs it: `null` → "null", booleans and numbers print,
strings pass through, plain objects → "[object Object]", arrays join their
elements with "," (a `null` element renders empty). -/
def jsDisplay (j : Json) : String :=
  match j with
  | Json.null => "null"
  | Json.bool b => cond b "true" "false"
  | Json.num n => toString n
  | Json.str s => s
  | Json.obj _ => "[object Object]"
  | Json.arr xs => jsDisplayList xs

/-- Array-to-string conversion: elements joined by ",", `null` elements
rendering empty. -/
def jsDisplayList (xs : List Json) : String :=
  match xs with
  | [] => ""
  | [Json.null] => ""
  | [j] => jsDisplay j
  | Json.null :: y :: rest => "," ++ jsDisplayList (y :: rest)
  | j :: y :: rest => jsDisplay j ++ "," ++ jsDisplayList (y :: rest)

end

/-- Template-literal interpolation of a possibly-`undefined` value:
`undefined` renders as "undefined". -/
def jsDisplayOpt (j : Option Json) : String :=
  match j with
  | none => "undefined"
  | some v => jsDisplay v

/-- `const login = async (auth: UserAuthentication): Promise<string>`:
POSTs the credentials; reads `data = await response.json()`; on a non-ok
status throws `Error("Login failed with status S: D")` where `D` is the
interpolation of `data.detail` (a `TypeError` instead if the body is JSON
`null`); on an ok status returns `data.token.token` — a blind cast, so the
returned "token" is whatever value sits there, possibly `undefined`.
The request itself does not influence the client's behaviour, so the model
is a function of the response outcome alone. -/
def login (o : HttpOutcome) : Except JsError (Option Json) :=
  match o with
  | HttpOutcome.transportError m => Except.error (JsError.fetchError m)
  | HttpOutcome.response status body =>
    if statusOk status then do
      let tok ← jsProp body "token"
      let tok2 ← jsPropOpt tok "token"
      Except.ok tok2
    else do
      let d ← jsProp body "detail"
      Except.error (JsError.error
        ("Login failed with status " ++ toString status ++ ": " ++ jsDisplayOpt d))

/-- `const logout = async (token: string)`: POSTs the revocation; on a non-ok
status only logs `console.error` and returns normally.  The source is missing
an `await` on `response.json()`, so `data` is a `Promise` and `data.detail`
interpolates as "undefined" in the logged line.  A transport failure of the
`fetch` itself still rejects and propagates to the caller.
Result: the logged lines, and the propagated rejection if any. -/
def logout (o : HttpOutcome) : List String × Option JsError :=
  match o with
  | HttpOutcome.transportError m => ([], some (JsError.fetchError m))
  | HttpOutcome.response status _ =>
    if statusOk status then ([], none)
    else (["Logout failed with status " ++ toString status ++ ": undefined"], none)

/-- `const upload = async (token, path): Promise<UploadedExtension>`:
multipart POST; on an ok status returns `await response.json()` blindly cast
to `UploadedExtension` (no shape validation — any JSON body is accepted);
on a non-ok status logs `console.error("Upload failed, status", status, body)`
(the model records the status-bearing prefix of that line; the source also
prints the raw response text) and throws
`Error("Upload failed with status S")`.
Result: the logged lines, and the returned body or thrown error. -/
def upload (o : HttpOutcome) : List String × Except JsError Json :=
  match o with
  | HttpOutcome.transportError m => ([], Except.error (JsError.fetchError m))
  | HttpOutcome.response status body =>
    if statusOk status then ([], Except.ok body)
    else (["Upload failed, status " ++ toString status],
      Except.error (JsError.error ("Upload failed with status " ++ toString status)))

/-- `const queryExtension = async (token, uuid): Promise<ExtensionMetadata>`:
authenticated GET; on an ok status returns the body blindly cast to
`ExtensionMetadata`; on a non-ok status logs and throws with the very same
"Upload failed" wording as `upload` (a copy-paste in the source). -/
def queryExtension (o : HttpOutcome) : List String × Except JsError Json :=
  match o with
  | HttpOutcome.transportError m => ([], Except.error (JsError.fetchError m))
  | HttpOutcome.response status body =>
    if statusOk status then ([], Except.ok body)
    else (["Upload failed, status " ++ toString status],
      Except.error (JsError.error ("Upload failed with status " ++ toString status)))

/-- `interface ConfirmationPrompts`: the two prompt texts fetched from the
API schema. -/
structure ConfirmationPrompts where
  shell_license_compliant : String
  tos_compliant : String
deriving DecidableEq

/-- `keyof ConfirmationPrompts`. -/
inductive PromptField where
  | shell_license_compliant : PromptField
  | tos_compliant : PromptField
deriving DecidableEq

/-- The string name of a field, as it keys JSON records. -/
def PromptField.fieldName (f : PromptField) : String :=
  match f with
  | PromptField.shell_license_compliant => "shell_license_compliant"
  | PromptField.tos_compliant => "tos_compliant"

/-- `confirmationPrompts[field]` for `field : keyof ConfirmationPrompts`. -/
def ConfirmationPrompts.get (p : ConfirmationPrompts) (f : PromptField) : String :=
  match f with
  | PromptField.shell_license_compliant => p.shell_license_compliant
  | PromptField.tos_compliant => p.tos_compliant

/-- The fixed field list `["shell_license_compliant", "tos_compliant"]` used
by `promptForConfirmation` and `verifyConfirmedPrompts`. -/
def confirmationFields : List PromptField :=
  [PromptField.shell_license_compliant, PromptField.tos_compliant]

/-- `const getPrompt = (field) => ...` inside `fetchConfirmationPrompts`:
reads `uploadComponent.properties[field].title` (each step raising a
`TypeError` on `undefined`/`null`), then requires the title to be a string,
else throws `Error("Failed to find confirmation prompt for field F")`. -/
def getPrompt (uploadComponent : Option Json) (field : String) : Except JsError String := do
  let props ← jsPropOpt uploadComponent "properties"
  let fieldObj ← jsPropOpt props field
  let title ← jsPropOpt fieldObj "title"
  match title with
  | some (Json.str s) => Except.ok s
  | _ => Except.error (JsError.error ("Failed to find confirmation prompt for field " ++ field))

/-- `const fetchConfirmationPrompts = async (): Promise<ConfirmationPrompts>`:
GETs the API schema and extracts
`data.components.schemas.ExtensionUpload.properties[field].title` for the two
fields.  Note the source never checks `response.ok` here: any status is
processed alike. -/
def fetchConfirmationPrompts (o : HttpOutcome) : Except JsError ConfirmationPrompts :=
  match o with
  | HttpOutcome.transportError m => Except.error (JsError.fetchError m)
  | HttpOutcome.response _ body => do
    let comps ← jsProp body "components"
    let schemas ← jsPropOpt comps "schemas"
    let uploadComponent ← jsPropOpt schemas "ExtensionUpload"
    let shell ← getPrompt uploadComponent "shell_license_compliant"
    let tos ← getPrompt uploadComponent "tos_compliant"
    Except.ok { shell_license_compliant := shell, tos_compliant := tos }

/-- The loop of `promptForConfirmation`: for each field in order, issue
`Confirm.prompt(confirmationPrompts[field])`; return `false` at the first
declined answer without prompting further.  `answers k` is the user's answer
to the k-th prompt issued; the second component lists the prompt texts
actually issued, in order. -/
def promptLoop (prompts : ConfirmationPrompts) (answers : Nat → Bool) :
    List PromptField → Nat → Bool × List String
  | [], _ => (true, [])
  | f :: rest, k =>
    let text := prompts.get f
    if answers k then
      let r := promptLoop prompts answers rest (k + 1)
      (r.1, text :: r.2)
    else (false, [text])

/-- `const promptForConfirmation = async (confirmationPrompts)`: asks the user
to confirm each of the two fields in the fixed order; short-circuits on the
first decline.  Returns (overall result, prompts issued in order). -/
def promptForConfirmation (prompts : ConfirmationPrompts) (answers : Nat → Bool) :
    Bool × List String :=
  promptLoop prompts answers confirmationFields 0

/-- The console-warning line of `loadConfirmations` (the source also prints
the offending value after the colon). -/
def ignoreMsg : String := "Ignoring unexpected confirmations:"

/-- The shape check of `const loadConfirmations = async (path)`, applied to
the parsed file contents: `typeof contents === "object" &&
!Array.isArray(contents)` accepts objects — and also JSON `null`, since
`typeof null === "object"` — returning them unchanged; anything else is
warned about and replaced by `{}`.  The returned value is `none` for a JS
`null` and `some kvs` for an object.  (The permission request, file read and
`JSON.parse` around this check are handled at the call site in the model.) -/
def loadConfirmations (contents : Json) : Option (List (String × Json)) × List String :=
  match contents with
  | Json.obj kvs => (some kvs, [])
  | Json.null => (none, [])
  | _ => (some [], [ignoreMsg])

/-- One saved-record field check of `verifyConfirmedPrompts`:
`confirmedPrompts[field] === prompts[field]` — strict equality of an unknown
saved value against the freshly fetched prompt string: true exactly when the
saved value is that string. -/
def recordFieldConfirmed (saved : List (String × Json)) (prompts : ConfirmationPrompts)
    (f : PromptField) : Bool :=
  match jsLookup saved f.fieldName with
  | some (Json.str s) => s == prompts.get f
  | _ => false

/-- `const verifyConfirmedPrompts = async (confirmedPrompts)`: always fetches
the live prompts first; with no saved record (`null`) falls back to the
interactive `promptForConfirmation`; with a saved record succeeds exactly
when every field's saved value strictly equals the fetched prompt text,
issuing no interactive prompt.  Returns (result, prompts issued). -/
def verifyConfirmedPrompts (schemaOutcome : HttpOutcome) (answers : Nat → Bool)
    (confirmedPrompts : Option (List (String × Json))) :
    Except JsError (Bool × List String) := do
  let prompts ← fetchConfirmationPrompts schemaOutcome
  match confirmedPrompts with
  | none => Except.ok (promptForConfirmation prompts answers)
  | some saved =>
    Except.ok (confirmationFields.all (fun f => recordFieldConfirmed saved prompts f), [])

/-- The JSON document the `confirm-upload` action writes:
`JSON.stringify(prompts, undefined, 2)` serialises the two-field object with
its keys in declaration order, and `JSON.parse` of that text recovers exactly
this object (flat string-valued objects round-trip through JSON). -/
def promptsToJson (p : ConfirmationPrompts) : Json :=
  Json.obj [("shell_license_compliant", Json.str p.shell_license_compliant),
    ("tos_compliant", Json.str p.tos_compliant)]

/-- The `confirm-upload` action, reduced to what it persists: after
`promptForConfirmation` succeeds it writes the prompts object to the target
file (`some` document); after a decline it writes nothing, prints the
refusal and exits 1 (`none`). -/
def confirmUploadWrites (p : ConfirmationPrompts) (answers : Nat → Bool) : Option Json :=
  if (promptForConfirmation p answers).1 then some (promptsToJson p) else none

/-- An observable event of one run of the main command action. -/
inductive Event where
  | promptIssued : String → Event
  | authPrompt : Event
  | loginAttempt : Event
  | uploadAttempt : Event
  | queryAttempt : Event
  | logoutAttempt : Event
deriving DecidableEq

/-- How a run of the main command action ends: normal completion, an explicit
`Deno.exit(code)`, or an uncaught exception. -/
inductive Outcome where
  | success : Outcome
  | exited : Nat → Outcome
  | threw : JsError → Outcome
deriving DecidableEq

/-- The observable result of one run: events in order, console lines in
order, and the final outcome. -/
structure RunResult where
  events : List Event
  log : List String
  outcome : Outcome
deriving DecidableEq

/-- The environment of one run: the outcome of each HTTP request the action
can issue, and the user's interactive confirmation answers. -/
structure Env where
  schemaOutcome : HttpOutcome
  answers : Nat → Bool
  loginOutcome : HttpOutcome
  uploadOutcome : HttpOutcome
  queryOutcome : HttpOutcome
  logoutOutcome : HttpOutcome

/-- `options.confirmations ? await loadConfirmations(options.confirmations)
: null`: with no `-c` option the pre-confirmed record is `null`; otherwise
`loadConfirmations` first requests read permission on the file (throwing when
denied — the source message also names the path) and then shape-checks the
parsed document. -/
def preconfirmed (confirmationsDoc : Option Json) (confReadGranted : Bool) :
    Except JsError (Option (List (String × Json)) × List String) :=
  match confirmationsDoc with
  | none => Except.ok (none, [])
  | some doc =>
    if !confReadGranted then
      Except.error (JsError.error "Permission to read confirmations denied")
    else Except.ok (loadConfirmations doc)

/-- The body of the `try` block of the main action:
`const { version, extension: uuid } = await upload(token, zipPath)` followed
by `const { id } = await queryExtension(token, uuid)` and the success
`console.log`.  Destructuring a `null` body throws a `TypeError`, like the
JavaScript it models.  Returns (events, console lines, thrown error if
any). -/
def tryUploadAndQuery (env : Env) : List Event × List String × Option JsError :=
  let u := upload env.uploadOutcome
  match u.2 with
  | Except.error e => ([Event.uploadAttempt], u.1, some e)
  | Except.ok ubody =>
    match jsProp ubody "version" with
    | Except.error e => ([Event.uploadAttempt], u.1, some e)
    | Except.ok version =>
      match jsProp ubody "extension" with
      | Except.error e => ([Event.uploadAttempt], u.1, some e)
      | Except.ok uuid =>
        let q := queryExtension env.queryOutcome
        match q.2 with
        | Except.error e => ([Event.uploadAttempt, Event.queryAttempt], u.1 ++ q.1, some e)
        | Except.ok qbody =>
          match jsProp qbody "id" with
          | Except.error e => ([Event.uploadAttempt, Event.queryAttempt], u.1 ++ q.1, some e)
          | Except.ok id =>
            ([Event.uploadAttempt, Event.queryAttempt],
             u.1 ++ q.1 ++
               ["Successfully uploaded extension " ++ jsDisplayOpt uuid ++ " version "
                 ++ jsDisplayOpt version ++ ", please find it at https://extensions.gnome.org/extension/"
                 ++ jsDisplayOpt id ++ "/"],
             none)

/-- The `catch (error)` clause of the main action: an `InvalidUploadError`
is reported ("Upload failed; reasons:" and one line per message) and
swallowed; any other error is rethrown.  Returns (console lines, rethrown
error if any). -/
def catchClause (e : JsError) : List String × Option JsError :=
  match e with
  | JsError.invalidUploadError errs =>
    ("Upload failed; reasons:" :: errs.map (fun m => "  - " ++ m), none)
  | e => ([], some e)

/-- The `try`/`catch`/`finally` of the main action, entered after a
successful login: run the try body, let the catch clause filter its error,
then always run `logout` once; per JavaScript semantics an exception thrown
by the `finally` block (a logout transport failure) replaces whatever the
try/catch produced. -/
def runSession (env : Env) (ev1 : List Event) (log1 : List String) : RunResult :=
  let t := tryUploadAndQuery env
  let c := match t.2.2 with
    | none => ([], none)
    | some e => catchClause e
  let lo := logout env.logoutOutcome
  { events := ev1 ++ t.1 ++ [Event.logoutAttempt],
    log := log1 ++ t.2.1 ++ c.1 ++ lo.1,
    outcome :=
      match lo.2 with
      | some e2 => Outcome.threw e2
      | none =>
        match c.2 with
        | some e => Outcome.threw e
        | none => Outcome.success }

/-- The events accumulated by the time `login` is called: the interactive
consent prompts issued, then `promptForMissingAuth`'s username/password
prompts (issued only for credentials not already supplied by flag or
environment), then the login request itself. -/
def baseEvents (issued : List String) (haveUsername havePassword : Bool) : List Event :=
  issued.map Event.promptIssued
    ++ ((if haveUsername then [] else [Event.authPrompt])
      ++ (if havePassword then [] else [Event.authPrompt]))
    ++ [Event.loginAttempt]

/-- The main command action (`.action(async (options, zipPath) => ...)`):
check the `.zip` extension, request read permission, load pre-confirmed
prompts if `-c` was given, verify consent (exiting 1 when refused), prompt
for missing credentials, log in, and run the upload session with its
guaranteed logout.  (`JSON.parse` failures on the confirmations file and
`Deno.readFile` failures on the zip are not modelled: the document parameter
is the already-parsed file.) -/
def mainAction (env : Env) (zipPath : String) (zipIsZip readGranted : Bool)
    (confirmationsDoc : Option Json) (confReadGranted haveUsername havePassword : Bool) :
    RunResult :=
  if !zipIsZip then
    { events := [], log := [],
      outcome := Outcome.threw (JsError.error (zipPath ++ " does not appear to be a zip file")) }
  else if !readGranted then
    { events := [], log := [],
      outcome := Outcome.threw (JsError.error ("Read permission to " ++ zipPath ++ " denied")) }
  else
    match preconfirmed confirmationsDoc confReadGranted with
    | Except.error e => { events := [], log := [], outcome := Outcome.threw e }
    | Except.ok (pre, warnLog) =>
      match verifyConfirmedPrompts env.schemaOutcome env.answers pre with
      | Except.error e => { events := [], log := warnLog, outcome := Outcome.threw e }
      | Except.ok (confirmed, issued) =>
        if !confirmed then
          { events := issued.map Event.promptIssued,
            log := warnLog ++
              ["You must confirm the license terms and terms of service to upload an extension!"],
            outcome := Outcome.exited 1 }
        else
          match login env.loginOutcome with
          | Except.error e =>
            { events := baseEvents issued haveUsername havePassword, log := warnLog,
              outcome := Outcome.threw e }
          | Except.ok _token =>
            runSession env (baseEvents issued haveUsername havePassword) warnLog

/-- A live schema document whose two prompt titles are the given strings. -/
def sampleSchemaBody (a b : String) : Json :=
  Json.obj [("components", Json.obj [("schemas", Json.obj [("ExtensionUpload",
    Json.obj [("properties", Json.obj [
      ("shell_license_compliant", Json.obj [("title", Json.str a)]),
      ("tos_compliant", Json.obj [("title", Json.str b)])])])])])]

/-- A schema fetch that succeeds with prompt titles "I agree" / "I accept". -/
def sampleSchemaOutcome : HttpOutcome :=
  HttpOutcome.response 200 (sampleSchemaBody "I agree" "I accept")

/-- A benign environment in which the user declines every interactive
prompt; all HTTP calls would succeed. -/
def envDeclined : Env :=
  { schemaOutcome := sampleSchemaOutcome,
    answers := fun _ => false,
    loginOutcome := HttpOutcome.response 200
      (Json.obj [("token", Json.obj [("token", Json.str "tok")])]),
    uploadOutcome := HttpOutcome.response 200
      (Json.obj [("extension", Json.str "x@example.com"), ("version", Json.num 1)]),
    queryOutcome := HttpOutcome.response 200
      (Json.obj [("id", Json.num 42), ("uuid", Json.str "x@example.com")]),
    logoutOutcome := HttpOutcome.response 200 (Json.obj []) }

/-- The user confirms everything, but login is refused with HTTP 400 and a
detail message. -/
def envLoginFail : Env :=
  { envDeclined with
    answers := fun _ => true,
    loginOutcome := HttpOutcome.response 400
      (Json.obj [("detail", Json.str "Invalid credentials")]) }

/-- The user confirms everything and login succeeds, but the upload is
refused with HTTP 400. -/
def envUploadFail : Env :=
  { envDeclined with
    answers := fun _ => true,
    uploadOutcome := HttpOutcome.response 400 (Json.obj [("detail", Json.str "bad zip")]) }

/-- As `envUploadFail`, but the logout request additionally fails at the
transport level (its `fetch` promise rejects). -/
def envUploadFailLogoutDown : Env :=
  { envUploadFail with logoutOutcome := HttpOutcome.transportError "connection reset" }

/-- Helper: with a saved record, `verifyConfirmedPrompts` reduces to the
conjunction of the two per-field strict-equality checks, issuing no
interactive prompt. -/
theorem verify_record_eq (o : HttpOutcome) (answers : Nat → Bool) (p : ConfirmationPrompts)
    (saved : List (String × Json)) (h : fetchConfirmationPrompts o = Except.ok p) :
    verifyConfirmedPrompts o answers (some saved) =
      Except.ok ((recordFieldConfirmed saved p PromptField.shell_license_compliant
        && recordFieldConfirmed saved p PromptField.tos_compliant), ([] : List String)) := by
  unfold verifyConfirmedPrompts
  rw [h]
  simp [Bind.bind, Except.bind, confirmationFields]

/-- Helper: one field check passes exactly when the saved value is the string
equal to the fetched prompt text. -/
theorem recordFieldConfirmed_iff (saved : List (String × Json)) (p : ConfirmationPrompts)
    (f : PromptField) :
    recordFieldConfirmed saved p f = true ↔
      jsLookup saved f.fieldName = some (Json.str (p.get f)) := by
  unfold recordFieldConfirmed
  cases hl : jsLookup saved f.fieldName with
  | none => simp
  | some v => cases v <;> simp_all

/-- C1: for every saved confirmation record supplied to
`verifyConfirmedPrompts`, the result is true if and only if, for both fields
`shell_license_compliant` and `tos_compliant`, the record's saved value is
exactly the freshly fetched prompt string; any mismatch or missing field
yields false, and in every case no interactive prompt is issued. -/
theorem verifyConfirmedPrompts_savedRecord_iff (o : HttpOutcome) (answers : Nat → Bool)
    (p : ConfirmationPrompts) (saved : List (String × Json))
    (h : fetchConfirmationPrompts o = Except.ok p) :
    ∃ b : Bool, verifyConfirmedPrompts o answers (some saved) = Except.ok (b, ([] : List String)) ∧
      (b = true ↔
        (jsLookup saved "shell_license_compliant" = some (Json.str p.shell_license_compliant) ∧
         jsLookup saved "tos_compliant" = some (Json.str p.tos_compliant))) := by
  refine ⟨_, verify_record_eq o answers p saved h, ?_⟩
  rw [Bool.and_eq_true, recordFieldConfirmed_iff, recordFieldConfirmed_iff]
  exact Iff.rfl

/-- C1 witness: at the live prompts "I agree"/"I accept" and a saved record
holding exactly those strings. -/
theorem verifyConfirmedPrompts_savedRecord_iff_witness :
    ∃ b : Bool, verifyConfirmedPrompts sampleSchemaOutcome (fun _ => false)
        (some [("shell_license_compliant", Json.str "I agree"),
          ("tos_compliant", Json.str "I accept")]) = Except.ok (b, ([] : List String)) ∧
      (b = true ↔
        (jsLookup [("shell_license_compliant", Json.str "I agree"),
            ("tos_compliant", Json.str "I accept")] "shell_license_compliant" =
            some (Json.str "I agree") ∧
         jsLookup [("shell_license_compliant", Json.str "I agree"),
            ("tos_compliant", Json.str "I accept")] "tos_compliant" =
            some (Json.str "I accept"))) :=
  verifyConfirmedPrompts_savedRecord_iff sampleSchemaOutcome (fun _ => false)
    { shell_license_compliant := "I agree", tos_compliant := "I accept" } _ rfl

/-- C2: `promptForConfirmation` issues the `shell_license_compliant` prompt
first; declining it short-circuits — the `tos_compliant` prompt is never
issued and the result is false; the result is true exactly when both
prompts, issued in that fixed order, are confirmed. -/
theorem promptForConfirmation_characterization (p : ConfirmationPrompts) (answers : Nat → Bool) :
    promptForConfirmation p answers =
      (answers 0 && answers 1,
       cond (answers 0) [p.shell_license_compliant, p.tos_compliant]
         [p.shell_license_compliant]) := by
  cases h0 : answers 0 <;> cases h1 : answers 1 <;>
    simp [promptForConfirmation, promptLoop, confirmationFields, ConfirmationPrompts.get, h0, h1]

/-- C3: a confirmation record written by the `confirm-upload` action (which
writes only after both prompts are confirmed), loaded back with
`loadConfirmations` and verified with `verifyConfirmedPrompts` against the
same unchanged remote prompts, verifies to true with no interactive
prompt. -/
theorem confirmUpload_roundTrip (o : HttpOutcome) (p : ConfirmationPrompts)
    (answers answers2 : Nat → Bool) (doc : Json)
    (hfetch : fetchConfirmationPrompts o = Except.ok p)
    (hwrite : confirmUploadWrites p answers = some doc) :
    verifyConfirmedPrompts o answers2 (loadConfirmations doc).1 =
      Except.ok (true, ([] : List String)) := by
  unfold confirmUploadWrites at hwrite
  split at hwrite
  · cases hwrite
    rw [show (loadConfirmations (promptsToJson p)).1 =
        some [("shell_license_compliant", Json.str p.shell_license_compliant),
          ("tos_compliant", Json.str p.tos_compliant)] from rfl]
    rw [verify_record_eq o answers2 p _ hfetch]
    have e1 : ("tos_compliant" == "shell_license_compliant") = false := by decide
    simp [recordFieldConfirmed, jsLookup, PromptField.fieldName, ConfirmationPrompts.get, e1]
  · cases hwrite

/-- C3 witness: round trip at the live prompts "I agree"/"I accept" with a
user who confirms both. -/
theorem confirmUpload_roundTrip_witness :
    verifyConfirmedPrompts sampleSchemaOutcome (fun _ => false)
      (loadConfirmations (promptsToJson
        { shell_license_compliant := "I agree", tos_compliant := "I accept" })).1 =
      Except.ok (true, ([] : List String)) :=
  confirmUpload_roundTrip sampleSchemaOutcome
    { shell_license_compliant := "I agree", tos_compliant := "I accept" }
    (fun _ => true) (fun _ => false) _ rfl rfl

/-- Helper: `logout` never throws when a response (of any status) arrived. -/
theorem logout_response_no_throw (status : Nat) (body : Json) :
    (logout (HttpOutcome.response status body)).2 = none := by
  simp only [logout]
  split <;> rfl

/-- Helper: the try body issues the upload attempt, and the query attempt
exactly when the upload step got past its destructuring. -/
theorem tryUploadAndQuery_shape (env : Env) :
    (tryUploadAndQuery env).1 = [Event.uploadAttempt] ∨
    (tryUploadAndQuery env).1 = [Event.uploadAttempt, Event.queryAttempt] := by
  unfold tryUploadAndQuery
  rcases h1 : (upload env.uploadOutcome).2 with e | ubody
  · simp [h1]
  · rcases h2 : jsProp ubody "version" with e | version
    · simp [h1, h2]
    · rcases h3 : jsProp ubody "extension" with e | uuid
      · simp [h1, h2, h3]
      · rcases h4 : (queryExtension env.queryOutcome).2 with e | qbody
        · simp [h1, h2, h3, h4]
        · rcases h5 : jsProp qbody "id" with e | id
          · simp [h1, h2, h3, h4, h5]
          · simp [h1, h2, h3, h4, h5]

/-- Helper: the try body never reads the logout outcome. -/
theorem tryUploadAndQuery_logout_irrel (env : Env) (o : HttpOutcome) :
    tryUploadAndQuery { env with logoutOutcome := o } = tryUploadAndQuery env := rfl

/-- Helper: the events of the post-login session are the pre-login events,
the try-body attempts, then the one logout attempt. -/
theorem runSession_events (env : Env) (ev1 : List Event) (log1 : List String) :
    (runSession env ev1 log1).events =
      ev1 ++ (tryUploadAndQuery env).1 ++ [Event.logoutAttempt] := rfl

/-- Helper: once consent passed, the main action is login followed by the
session (or the login error thrown with no session). -/
theorem mainAction_login_reached (env : Env) (zipPath : String) (confDoc : Option Json)
    (cg hu hp : Bool) (pre : Option (List (String × Json))) (warnLog issued : List String)
    (h1 : preconfirmed confDoc cg = Except.ok (pre, warnLog))
    (h2 : verifyConfirmedPrompts env.schemaOutcome env.answers pre = Except.ok (true, issued)) :
    mainAction env zipPath true true confDoc cg hu hp =
      match login env.loginOutcome with
      | Except.error e =>
        { events := baseEvents issued hu hp, log := warnLog, outcome := Outcome.threw e }
      | Except.ok _ => runSession env (baseEvents issued hu hp) warnLog := by
  simp [mainAction, h1, h2]

/-- C7: whenever consent verification returns false, the main action prints
the refusal and exits with code 1; no credential prompt is issued and no
login (nor any later step) is attempted. -/
theorem consent_failure_aborts_before_login (env : Env) (zipPath : String)
    (confDoc : Option Json) (cg hu hp : Bool)
    (pre : Option (List (String × Json))) (warnLog issued : List String)
    (h1 : preconfirmed confDoc cg = Except.ok (pre, warnLog))
    (h2 : verifyConfirmedPrompts env.schemaOutcome env.answers pre =
      Except.ok (false, issued)) :
    mainAction env zipPath true true confDoc cg hu hp =
      { events := issued.map Event.promptIssued,
        log := warnLog ++
          ["You must confirm the license terms and terms of service to upload an extension!"],
        outcome := Outcome.exited 1 } ∧
    Event.loginAttempt ∉ issued.map Event.promptIssued ∧
    Event.authPrompt ∉ issued.map Event.promptIssued := by
  refine ⟨by simp [mainAction, h1, h2], by simp, by simp⟩

/-- C7 witness: the user declines the first prompt; the run exits 1 having
only issued that prompt. -/
theorem consent_failure_aborts_before_login_witness :
    mainAction envDeclined "ext.zip" true true none true true true =
      { events := [Event.promptIssued "I agree"],
        log := ["You must confirm the license terms and terms of service to upload an extension!"],
        outcome := Outcome.exited 1 } :=
  (consent_failure_aborts_before_login envDeclined "ext.zip" none true true true
    none [] ["I agree"] rfl rfl).1

/-- C6: a logout response with a non-success status only produces a logged
diagnostic line — `logout` returns normally — and leaves the outcome of the
surrounding session exactly what it would have been had logout succeeded. -/
theorem logout_status_failure_warns_only (status : Nat) (body : Json)
    (h : statusOk status = false) :
    logout (HttpOutcome.response status body) =
      (["Logout failed with status " ++ toString status ++ ": undefined"], none) ∧
    ∀ env : Env, ∀ ev1 : List Event, ∀ log1 : List String, ∀ status2 : Nat, ∀ body2 : Json,
      statusOk status2 = true →
      (runSession { env with logoutOutcome := HttpOutcome.response status body } ev1 log1).outcome =
        (runSession { env with logoutOutcome := HttpOutcome.response status2 body2 }
          ev1 log1).outcome := by
  constructor
  · simp [logout, h]
  · intro env ev1 log1 status2 body2 h2
    simp [runSession, logout, h, h2, tryUploadAndQuery_logout_irrel]

/-- C6 witness: a 500 logout response alongside a failed upload; the session
outcome equals that of a 200 logout. -/
theorem logout_status_failure_warns_only_witness :
    logout (HttpOutcome.response 500 (Json.obj [])) =
      (["Logout failed with status 500: undefined"], none) ∧
    (runSession { envUploadFail with logoutOutcome := HttpOutcome.response 500 (Json.obj []) }
        [] []).outcome =
      (runSession { envUploadFail with logoutOutcome := HttpOutcome.response 200 (Json.obj []) }
        [] []).outcome :=
  ⟨(logout_status_failure_warns_only 500 (Json.obj []) rfl).1,
   (logout_status_failure_warns_only 500 (Json.obj []) rfl).2 envUploadFail [] [] 200
     (Json.obj []) rfl⟩

/-- C4 counterexample: a login response with non-success status 400 whose
body is JSON `null` makes `login` fail with a `TypeError` from reading
`data.detail` — not with the "Login failed" error carrying a server detail
message. -/
theorem login_nullBody_typeError :
    login (HttpOutcome.response 400 Json.null) =
      Except.error (JsError.typeError "Cannot read properties of null (reading detail)") := rfl

/-- C4 (amended): for every login response with a non-success status and a
body other than JSON `null`, `login` fails with the `Error` carrying the
status and the interpolated server detail, produces no session token, and
the main action then throws that error having never attempted upload or
logout (for a JSON `null` body the failure is a `TypeError` instead, still
with no token and no upload or logout attempt). -/
theorem login_failure_aborts_run (env : Env) (zipPath : String) (confDoc : Option Json)
    (cg hu hp : Bool) (pre : Option (List (String × Json))) (warnLog issued : List String)
    (status : Nat) (body : Json) (d : Option Json)
    (h1 : preconfirmed confDoc cg = Except.ok (pre, warnLog))
    (h2 : verifyConfirmedPrompts env.schemaOutcome env.answers pre = Except.ok (true, issued))
    (hlo : env.loginOutcome = HttpOutcome.response status body)
    (hstatus : statusOk status = false)
    (hd : jsProp body "detail" = Except.ok d) :
    login env.loginOutcome = Except.error (JsError.error
      ("Login failed with status " ++ toString status ++ ": " ++ jsDisplayOpt d)) ∧
    mainAction env zipPath true true confDoc cg hu hp =
      { events := baseEvents issued hu hp, log := warnLog,
        outcome := Outcome.threw (JsError.error
          ("Login failed with status " ++ toString status ++ ": " ++ jsDisplayOpt d)) } ∧
    Event.uploadAttempt ∉ baseEvents issued hu hp ∧
    Event.logoutAttempt ∉ baseEvents issued hu hp := by
  have hlogin : login env.loginOutcome = Except.error (JsError.error
      ("Login failed with status " ++ toString status ++ ": " ++ jsDisplayOpt d)) := by
    rw [hlo]
    simp [login, hstatus, hd, Bind.bind, Except.bind]
  refine ⟨hlogin, ?_, ?_, ?_⟩
  · rw [mainAction_login_reached env zipPath confDoc cg hu hp pre warnLog issued h1 h2, hlogin]
  · cases hu <;> cases hp <;> simp [baseEvents]
  · cases hu <;> cases hp <;> simp [baseEvents]

/-- C4 witness: login refused with 400 and detail "Invalid credentials"
after interactive consent; the run ends by throwing the login error with no
upload and no logout attempt. -/
theorem login_failure_aborts_run_witness :
    mainAction envLoginFail "ext.zip" true true none true true true =
      { events := [Event.promptIssued "I agree", Event.promptIssued "I accept",
          Event.loginAttempt],
        log := [],
        outcome :=
          Outcome.threw (JsError.error "Login failed with status 400: Invalid credentials") } :=
  (login_failure_aborts_run envLoginFail "ext.zip" none true true true none []
    ["I agree", "I accept"] 400 (Json.obj [("detail", Json.str "Invalid credentials")])
    (some (Json.str "Invalid credentials")) rfl rfl rfl rfl rfl).2.1

/-- C5 counterexample: the upload is refused with status 400 — but because
the logout attempted by the `finally` block fails at the transport level,
its exception replaces the pending upload error per JavaScript `finally`
semantics, and the workflow fails with the logout fetch rejection instead of
the upload error.  The logout attempt still happens exactly once. -/
theorem logout_transport_masks_upload_failure :
    mainAction envUploadFailLogoutDown "ext.zip" true true none true true true =
      { events := [Event.promptIssued "I agree", Event.promptIssued "I accept",
          Event.loginAttempt, Event.uploadAttempt, Event.logoutAttempt],
        log := ["Upload failed, status 400"],
        outcome := Outcome.threw (JsError.fetchError "connection reset") } ∧
    (mainAction envUploadFailLogoutDown "ext.zip" true true none true true true).events.count
      Event.logoutAttempt = 1 := by
  constructor <;> rfl

/-- C5 (amended): once login has succeeded, the main action attempts logout
exactly once on every exit path; and when the upload response has a
non-success status while the logout request itself gets a response (of any
status), the workflow fails with the upload `Error` carrying the status. -/
theorem upload_failure_logout_once (env : Env) (zipPath : String) (confDoc : Option Json)
    (cg hu hp : Bool) (pre : Option (List (String × Json))) (warnLog issued : List String)
    (tok : Option Json)
    (h1 : preconfirmed confDoc cg = Except.ok (pre, warnLog))
    (h2 : verifyConfirmedPrompts env.schemaOutcome env.answers pre = Except.ok (true, issued))
    (hlogin : login env.loginOutcome = Except.ok tok) :
    (mainAction env zipPath true true confDoc cg hu hp).events.count Event.logoutAttempt = 1 ∧
    (∀ status : Nat, ∀ body : Json, ∀ status2 : Nat, ∀ body2 : Json,
      env.uploadOutcome = HttpOutcome.response status body → statusOk status = false →
      env.logoutOutcome = HttpOutcome.response status2 body2 →
      (mainAction env zipPath true true confDoc cg hu hp).outcome =
        Outcome.threw (JsError.error ("Upload failed with status " ++ toString status))) := by
  rw [mainAction_login_reached env zipPath confDoc cg hu hp pre warnLog issued h1 h2, hlogin]
  constructor
  · rw [runSession_events]
    rw [List.count_append, List.count_append]
    have hbase : (baseEvents issued hu hp).count Event.logoutAttempt = 0 := by
      rw [List.count_eq_zero]
      cases hu <;> cases hp <;> simp [baseEvents]
    have htry : (tryUploadAndQuery env).1.count Event.logoutAttempt = 0 := by
      rw [List.count_eq_zero]
      rcases tryUploadAndQuery_shape env with hs | hs <;> rw [hs] <;> simp
    rw [hbase, htry]
    decide
  · intro status body status2 body2 hup hstatus hlogout
    have htry : tryUploadAndQuery env =
        ([Event.uploadAttempt], ["Upload failed, status " ++ toString status],
          some (JsError.error ("Upload failed with status " ++ toString status))) := by
      unfold tryUploadAndQuery
      rw [hup]
      simp [upload, hstatus]
    simp [runSession, htry, catchClause, hlogout, logout_response_no_throw]

/-- C5 witness: upload refused with 400, logout response 200; logout counted
once and the outcome is the upload error. -/
theorem upload_failure_logout_once_witness :
    (mainAction envUploadFail "ext.zip" true true none true true true).events.count
      Event.logoutAttempt = 1 ∧
    (mainAction envUploadFail "ext.zip" true true none true true true).outcome =
      Outcome.threw (JsError.error "Upload failed with status 400") :=
  ⟨(upload_failure_logout_once envUploadFail "ext.zip" none true true true none []
      ["I agree", "I accept"] (some (Json.str "tok")) rfl rfl rfl).1,
   (upload_failure_logout_once envUploadFail "ext.zip" none true true true none []
      ["I agree", "I accept"] (some (Json.str "tok")) rfl rfl rfl).2 400
     (Json.obj [("detail", Json.str "bad zip")]) 200 (Json.obj []) rfl rfl rfl⟩

/-- Helper: a prepended key different from the looked-up one does not change
an object lookup. -/
theorem jsLookup_cons_ne (k key : String) (v : Json) (rest : List (String × Json))
    (hk : (k == key) = false) : jsLookup ((k, v) :: rest) key = jsLookup rest key := by
  show (match jsLookup rest key with
    | some v2 => some v2
    | none => if k == key then some v else none) = jsLookup rest key
  cases h : jsLookup rest key <;> simp [hk]

/-- C8 counterexample: a JSON `null` document passes the
`typeof contents === "object"` check, so it is returned unchanged with no
warning — not "rejected with a warning"; and an array document, which is
replaced by the empty record `{}`, then fails verification without any
prompt, while actually supplying no saved confirmations would prompt
interactively (and here succeed) — so "treated as empty" is not equivalent
to "no saved confirmations". -/
theorem loadConfirmations_null_and_array_behavior :
    loadConfirmations Json.null = (none, []) ∧
    verifyConfirmedPrompts sampleSchemaOutcome (fun _ => true)
      (loadConfirmations (Json.arr [])).1 = Except.ok (false, ([] : List String)) ∧
    verifyConfirmedPrompts sampleSchemaOutcome (fun _ => true) none =
      Except.ok (true, ["I agree", "I accept"]) :=
  ⟨rfl, rfl, rfl⟩

/-- C8 (amended): a document parsing to an object is returned unchanged (and
keys beyond the two known ones are ignored by the verification step, which
also fails on the empty record); a JSON `null` document is likewise returned
unchanged, without warning, and behaves as supplying no saved confirmations;
an array, string, number or boolean document is rejected with a warning and
replaced by the empty record. -/
theorem loadConfirmations_characterization
    (kvs rest : List (String × Json)) (xs : List Json) (b : Bool) (n : Int) (s k : String)
    (v : Json) (o : HttpOutcome) (answers : Nat → Bool) (p : ConfirmationPrompts)
    (h : fetchConfirmationPrompts o = Except.ok p)
    (hk1 : (k == "shell_license_compliant") = false)
    (hk2 : (k == "tos_compliant") = false) :
    loadConfirmations (Json.obj kvs) = (some kvs, []) ∧
    loadConfirmations Json.null = (none, []) ∧
    loadConfirmations (Json.arr xs) = (some [], [ignoreMsg]) ∧
    loadConfirmations (Json.str s) = (some [], [ignoreMsg]) ∧
    loadConfirmations (Json.num n) = (some [], [ignoreMsg]) ∧
    loadConfirmations (Json.bool b) = (some [], [ignoreMsg]) ∧
    verifyConfirmedPrompts o answers (some ((k, v) :: rest)) =
      verifyConfirmedPrompts o answers (some rest) ∧
    verifyConfirmedPrompts o answers (some []) = Except.ok (false, ([] : List String)) := by
  refine ⟨rfl, rfl, rfl, rfl, rfl, rfl, ?_, ?_⟩
  · rw [verify_record_eq o answers p _ h, verify_record_eq o answers p _ h]
    have e1 := jsLookup_cons_ne k "shell_license_compliant" v rest hk1
    have e2 := jsLookup_cons_ne k "tos_compliant" v rest hk2
    simp [recordFieldConfirmed, PromptField.fieldName, e1, e2]
  · rw [verify_record_eq o answers p _ h]
    rfl

/-- C8 witness: an unknown extra key is invisible to verification. -/
theorem loadConfirmations_characterization_witness :
    verifyConfirmedPrompts sampleSchemaOutcome (fun _ => false)
        (some [("extra", Json.num 7)]) =
      verifyConfirmedPrompts sampleSchemaOutcome (fun _ => false) (some []) :=
  (loadConfirmations_characterization [] [] [] true 0 "x" "extra" (Json.num 7)
    sampleSchemaOutcome (fun _ => false)
    { shell_license_compliant := "I agree", tos_compliant := "I accept" }
    rfl rfl rfl).2.2.2.2.2.2.1

/-- C9 counterexample: an OK-status response with a body of the wrong shape
is not surfaced as a malformed-response error — `upload` returns the empty
object as its success value, `login` returns `undefined` as the token when
the nested token field is missing — and `fetchConfirmationPrompts` processes
a status-500 response exactly like a success, never distinguishing an
API-reported failure. -/
theorem apiClient_malformed_ok_accepted :
    upload (HttpOutcome.response 200 (Json.obj [])) = ([], Except.ok (Json.obj [])) ∧
    login (HttpOutcome.response 200 (Json.obj [("token", Json.obj [])])) =
      Except.ok none ∧
    fetchConfirmationPrompts (HttpOutcome.response 500 (sampleSchemaBody "I agree" "I accept")) =
      Except.ok { shell_license_compliant := "I agree", tos_compliant := "I accept" } :=
  ⟨rfl, rfl, rfl⟩

/-- C9 (amended): `login`, `upload` and `queryExtension` distinguish a
transport failure (the fetch rejection propagates untouched) from an
API-reported failure (an explicit `Error` carrying the HTTP status, with
`upload` and `queryExtension` sharing identical wording); but an OK-status
body is returned without shape validation, so a malformed body is not a
distinct error kind; `fetchConfirmationPrompts` propagates transport
failures but never checks the response status. -/
theorem apiClient_error_classes (m : String) (status : Nat) (body : Json)
    (hstatus : statusOk status = false) :
    login (HttpOutcome.transportError m) = Except.error (JsError.fetchError m) ∧
    upload (HttpOutcome.transportError m) = ([], Except.error (JsError.fetchError m)) ∧
    queryExtension (HttpOutcome.transportError m) =
      ([], Except.error (JsError.fetchError m)) ∧
    fetchConfirmationPrompts (HttpOutcome.transportError m) =
      Except.error (JsError.fetchError m) ∧
    upload (HttpOutcome.response status body) =
      (["Upload failed, status " ++ toString status],
       Except.error (JsError.error ("Upload failed with status " ++ toString status))) ∧
    queryExtension (HttpOutcome.response status body) =
      (["Upload failed, status " ++ toString status],
       Except.error (JsError.error ("Upload failed with status " ++ toString status))) ∧
    (∀ status2 : Nat, ∀ body2 : Json, statusOk status2 = true →
      upload (HttpOutcome.response status2 body2) = ([], Except.ok body2)) := by
  refine ⟨rfl, rfl, rfl, rfl, ?_, ?_, ?_⟩
  · simp [upload, hstatus]
  · simp [queryExtension, hstatus]
  · intro status2 body2 h2
    simp [upload, h2]

/-- C9 witness: a 404 upload response produces the status-bearing error. -/
theorem apiClient_error_classes_witness :
    upload (HttpOutcome.response 404 Json.null) =
      (["Upload failed, status 404"],
       Except.error (JsError.error "Upload failed with status 404")) :=
  (apiClient_error_classes "down" 404 Json.null rfl).2.2.2.2.1

/-- Helper: `upload` never throws an `InvalidUploadError`. -/
theorem upload_error_not_invalid (o : HttpOutcome) (e : JsError) (l : List String)
    (h : (upload o).2 = Except.error e) : e ≠ JsError.invalidUploadError l := by
  cases o with
  | transportError m =>
    simp [upload] at h
    subst h
    simp
  | response s b =>
    by_cases hs : statusOk s
    · simp [upload, hs] at h
    · simp [upload, hs] at h
      subst h
      simp

/-- Helper: `queryExtension` never throws an `InvalidUploadError`. -/
theorem queryExtension_error_not_invalid (o : HttpOutcome) (e : JsError) (l : List String)
    (h : (queryExtension o).2 = Except.error e) : e ≠ JsError.invalidUploadError l := by
  cases o with
  | transportError m =>
    simp [queryExtension] at h
    subst h
    simp
  | response s b =>
    by_cases hs : statusOk s
    · simp [queryExtension, hs] at h
    · simp [queryExtension, hs] at h
      subst h
      simp

/-- Helper: property access never throws an `InvalidUploadError`. -/
theorem jsProp_error_not_invalid (j : Json) (key : String) (e : JsError) (l : List String)
    (h : jsProp j key = Except.error e) : e ≠ JsError.invalidUploadError l := by
  cases j <;> simp [jsProp] at h <;> (subst h; simp)

/-- Helper: the try body never produces an `InvalidUploadError`. -/
theorem tryUploadAndQuery_error_not_invalid (env : Env) (l : List String) :
    (tryUploadAndQuery env).2.2 ≠ some (JsError.invalidUploadError l) := by
  unfold tryUploadAndQuery
  rcases h1 : (upload env.uploadOutcome).2 with e1 | ubody
  · simpa [h1] using upload_error_not_invalid env.uploadOutcome e1 l h1
  · rcases h2 : jsProp ubody "version" with e2 | version
    · simpa [h1, h2] using jsProp_error_not_invalid ubody "version" e2 l h2
    · rcases h3 : jsProp ubody "extension" with e3 | uuid
      · simpa [h1, h2, h3] using jsProp_error_not_invalid ubody "extension" e3 l h3
      · rcases h4 : (queryExtension env.queryOutcome).2 with e4 | qbody
        · simpa [h1, h2, h3, h4] using
            queryExtension_error_not_invalid env.queryOutcome e4 l h4
        · rcases h5 : jsProp qbody "id" with e5 | id
          · simpa [h1, h2, h3, h4, h5] using jsProp_error_not_invalid qbody "id" e5 l h5
          · simp [h1, h2, h3, h4, h5]

/-- C10: no code path of the token-based variant constructs or throws an
`InvalidUploadError`: every error the try body (upload, result
destructuring, metadata lookup) can produce is of another kind, so the
`catch` branch that would print "Upload failed; reasons:" never fires — the
catch clause rethrows every such error unchanged, printing nothing. -/
theorem invalidUploadError_never_thrown (env : Env) (e : JsError)
    (h : (tryUploadAndQuery env).2.2 = some e) :
    (∀ l : List String, e ≠ JsError.invalidUploadError l) ∧
    catchClause e = ([], some e) := by
  have hne : ∀ l : List String, e ≠ JsError.invalidUploadError l := by
    intro l hl
    rw [hl] at h
    exact tryUploadAndQuery_error_not_invalid env l h
  refine ⟨hne, ?_⟩
  cases e with
  | error s => rfl
  | typeError s => rfl
  | fetchError s => rfl
  | invalidUploadError l => exact absurd rfl (hne l)

/-- C10 witness: the status-400 upload error reaches the catch clause and is
rethrown unchanged, printing nothing. -/
theorem invalidUploadError_never_thrown_witness :
    catchClause (JsError.error "Upload failed with status 400") =
      ([], some (JsError.error "Upload failed with status 400")) :=
  (invalidUploadError_never_thrown envUploadFail
    (JsError.error "Upload failed with status 400") rfl).2
